import Mathlib

/-!
# Verification of the libxayagame synchronization core

This file gives a shallow embedding of the parts of the libxayagame
repository that its specification talks about:

* the foreign-call buffer-negotiation adapter `ExternGameLogic`
  (embedded from `src/xayagame/cmain.cpp`);
* the ZMQ notification subscriber (its implementation file is not part
  of the shown sources; it is modelled from the specification, guided
  by its test suite `src/xayagame/zmqsubscriber_tests.cpp`);
* the 256-bit identifier type `uint256` (likewise modelled from the
  specification, guided by `src/xayagame/uint256_tests.cpp`).

Byte strings are modelled as `List Char` (one `Char` per byte) and byte
payloads as `List Nat`.  Fatal process termination (glog `CHECK` /
`LOG(FATAL)`) is modelled by the `Except.error` branch carrying the
diagnostic message; the loops of the adapter are given explicit fuel,
with the honest-callee semantics making two units of fuel always enough.
-/

namespace Xaya

/-! ## The buffer-negotiation adapter (`cmain.cpp`)

`ExternGameLogic` keeps a single mutable field, the buffer size used for
game-state / undo buffers.  It starts at 1024 (`cmain.cpp:118`). -/

/-- The adapter state: `int bufferSize = 1024;` of `ExternGameLogic`
(`cmain.cpp:118`). -/
structure ExternGameLogic where
  bufferSize : Nat
deriving Repr, DecidableEq

/-- A freshly constructed `ExternGameLogic`, with the initial buffer size
of 1024 bytes. -/
def ExternGameLogic.init : ExternGameLogic := ⟨1024⟩

/-- Embeds `ExternGameLogic::IncreaseBufferSize` (`cmain.cpp:129-133`):
`bufferSize = std::max (desiredSize, 2 * bufferSize);`. -/
def ExternGameLogic.IncreaseBufferSize (g : ExternGameLogic)
    (desiredSize : Nat) : ExternGameLogic :=
  { g with bufferSize := max desiredSize (2 * g.bufferSize) }

/-- A foreign implementation of `XayaGameProcessForward` as described by
its contract (`cmain.cpp:67-80`): for given inputs it has a minimum
required buffer size and, on success, produces the new state and the
undo data. -/
structure ForwardCallee where
  minSize : List Nat → List Char → Nat
  newStateOut : List Nat → List Char → List Nat
  undoDataOut : List Nat → List Char → List Nat

/-- One invocation of the foreign `XayaGameProcessForward` with a caller
buffer of size `bufferSize`: returns zero and writes the outputs if the
buffer suffices, and otherwise returns the minimum required size
(`cmain.cpp:72-73`). -/
def callForward (c : ForwardCallee) (oldState : List Nat)
    (blockData : List Char) (bufferSize : Nat) :
    Nat × List Nat × List Nat :=
  if c.minSize oldState blockData ≤ bufferSize then
    (0, c.newStateOut oldState blockData, c.undoDataOut oldState blockData)
  else
    (c.minSize oldState blockData, [], [])

/-- The retry loop of `ExternGameLogic::ProcessForward`
(`cmain.cpp:208-224`): call the foreign function, and on a nonzero
result increase the buffer size and retry.  Fuel bounds the number of
iterations; the honest callee never needs more than two. -/
def forwardLoop (c : ForwardCallee) (oldState : List Nat)
    (blockData : List Char) :
    ExternGameLogic → Nat → Except String (ExternGameLogic × List Nat × List Nat)
  | _, 0 => .error "buffer retry loop out of fuel"
  | g, fuel + 1 =>
    match callForward c oldState blockData g.bufferSize with
    | (0, ns, ud) => .ok (g, ns, ud)
    | (res + 1, _, _) =>
        forwardLoop c oldState blockData (g.IncreaseBufferSize (res + 1)) fuel

/-- Embeds `ExternGameLogic::ProcessForward` (`cmain.cpp:196-230`): run
the retry loop and return the new state, with the undo data as the
second output. -/
def ExternGameLogic.ProcessForward (g : ExternGameLogic) (c : ForwardCallee)
    (oldState : List Nat) (blockData : List Char) :
    Except String (ExternGameLogic × List Nat × List Nat) :=
  forwardLoop c oldState blockData g 2

/-- A foreign implementation of `XayaGameProcessBackwards` as described
by its contract (`cmain.cpp:82-93`): minimum required buffer size plus
the reconstructed old state written on success. -/
structure BackwardsCallee where
  minSize : List Nat → List Char → List Nat → Nat
  oldStateOut : List Nat → List Char → List Nat → List Nat

/-- One invocation of the foreign `XayaGameProcessBackwards` with buffer
size `bufferSize`: zero result and the reconstructed old state if the
buffer suffices, the minimum required size otherwise. -/
def callBackwards (c : BackwardsCallee) (newState : List Nat)
    (blockData : List Char) (undoData : List Nat) (bufferSize : Nat) :
    Nat × List Nat :=
  if c.minSize newState blockData undoData ≤ bufferSize then
    (0, c.oldStateOut newState blockData undoData)
  else
    (c.minSize newState blockData undoData, [])

/-- The retry loop of `ExternGameLogic::ProcessBackwards`
(`cmain.cpp:243-258`). -/
def backwardsLoop (c : BackwardsCallee) (newState : List Nat)
    (blockData : List Char) (undoData : List Nat) :
    ExternGameLogic → Nat → Except String (ExternGameLogic × List Nat)
  | _, 0 => .error "buffer retry loop out of fuel"
  | g, fuel + 1 =>
    match callBackwards c newState blockData undoData g.bufferSize with
    | (0, old) => .ok (g, old)
    | (res + 1, _) =>
        backwardsLoop c newState blockData undoData
          (g.IncreaseBufferSize (res + 1)) fuel

/-- Embeds `ExternGameLogic::ProcessBackwards` (`cmain.cpp:232-262`).
The loop reconstructs `oldState` and resizes it to the reported size,
but the function body then executes `return newState;`
(`cmain.cpp:261`), so the reconstructed value is discarded and the
`newState` argument is returned instead. -/
def ExternGameLogic.ProcessBackwards (g : ExternGameLogic)
    (c : BackwardsCallee) (newState : List Nat) (blockData : List Char)
    (undoData : List Nat) : Except String (ExternGameLogic × List Nat) :=
  match backwardsLoop c newState blockData undoData g 2 with
  | .error e => .error e
  | .ok (g', _oldState) => .ok (g', newState)

/-- A foreign implementation of `XayaGameGetInitialState`
(`cmain.cpp:52-65`): minimum required game-state buffer size, the state
bytes, the reported block height (a C `int`, possibly negative) and the
65 characters the callee leaves in the `hashHex` buffer (64 hex digits
plus an optional nul terminator). -/
structure InitialStateCallee where
  minSize : Nat
  stateBytes : List Nat
  height : Int
  hashChars : List Char

/-- One invocation of the foreign `XayaGameGetInitialState` with buffer
size `bufferSize`. -/
def callGetInitialState (c : InitialStateCallee) (bufferSize : Nat) :
    Nat × List Nat × Nat × Int × List Char :=
  if c.minSize ≤ bufferSize then
    (0, c.stateBytes, c.stateBytes.length, c.height, c.hashChars)
  else
    (c.minSize, [], 0, 0, [])

/-- The retry loop of `ExternGameLogic::GetInitialState`
(`cmain.cpp:172-184`). -/
def initialStateLoop (c : InitialStateCallee) :
    ExternGameLogic → Nat →
    Except String (ExternGameLogic × List Nat × Nat × Int × List Char)
  | _, 0 => .error "buffer retry loop out of fuel"
  | g, fuel + 1 =>
    match callGetInitialState c g.bufferSize with
    | (0, st, sz, h, hash) => .ok (g, st, sz, h, hash)
    | (res + 1, _, _, _, _) =>
        initialStateLoop c (g.IncreaseBufferSize (res + 1)) fuel

/-- Embeds `ExternGameLogic::GetInitialState` (`cmain.cpp:164-194`):
after a successful foreign call, `CHECK (intHeight >= 0)` terminates the
process on a negative height; otherwise the height is the reported
value, the hash buffer (65 chars) is resized to 64 characters and the
state buffer is truncated to the reported state size. -/
def ExternGameLogic.GetInitialState (g : ExternGameLogic)
    (c : InitialStateCallee) :
    Except String (ExternGameLogic × List Nat × Nat × List Char) :=
  match initialStateLoop c g 2 with
  | .error e => .error e
  | .ok (g', st, sz, h, hash) =>
    if h < 0 then .error "Check failed: intHeight >= 0"
    else .ok (g', st.take sz, h.toNat, hash.take 64)

/-! ## The ZMQ notification subscriber

The implementation file `zmqsubscriber.cpp` is not among the shown
sources; only its test suite is.  The definitions below are therefore
modelled from the specification (sections 3, 4.1 and 7 of the spec),
with diagnostics and concrete scenarios matched against the test
suite. -/

/-- Modelled from the spec: the kind of block event a notification
topic encodes, `attach` or `detach`. -/
inductive EventKind where
  | attach
  | detach
deriving Repr, DecidableEq

/-- Modelled from the spec: the Subscriber state — an optional endpoint
address, the registry mapping game identifiers to listeners (listeners
are identified by a `Nat` handle), the running flag, and the per-topic
last observed sequence number (an association list keyed by topic,
newest entry first). -/
structure ZmqSubscriber where
  endpoint : Option (List Char)
  listeners : List (List Char × Nat)
  running : Bool
  lastSeq : List (List Char × Nat)
deriving Repr, DecidableEq

/-- A freshly constructed Subscriber: no endpoint, no listeners, not
running, no sequence baselines. -/
def ZmqSubscriber.mk0 : ZmqSubscriber := ⟨none, [], false, []⟩

/-- Modelled from the spec: `IsRunning()` pure query. -/
def ZmqSubscriber.IsRunning (s : ZmqSubscriber) : Bool := s.running

/-- Modelled from the spec: `IsEndpointSet()` pure query. -/
def ZmqSubscriber.IsEndpointSet (s : ZmqSubscriber) : Bool :=
  s.endpoint.isSome

/-- Modelled from the spec: `SetEndpoint(address)` sets the connection
string and fails fatally (diagnostic `!IsRunning`, as in the test
suite) if the Subscriber is currently running. -/
def ZmqSubscriber.SetEndpoint (s : ZmqSubscriber) (address : List Char) :
    Except String ZmqSubscriber :=
  if s.running then .error "Check failed: !IsRunning ()"
  else .ok { s with endpoint := some address }

/-- Modelled from the spec: `AddListener(gameId, listener)` registers a
listener for a game and fails fatally if called while running.  The
spec's fatal-on-duplicate clause is contradicted by the repository's
own test suite: `ZmqSubscriberTests.MultipleListeners`
(`zmqsubscriber_tests.cpp:404-406`) registers a second listener for an
already-registered game with no death and expects both listeners
invoked, so registration appends unconditionally (multimap
semantics). -/
def ZmqSubscriber.AddListener (s : ZmqSubscriber) (gameId : List Char)
    (listener : Nat) : Except String ZmqSubscriber :=
  if s.running then .error "Check failed: !IsRunning ()"
  else .ok { s with listeners := s.listeners ++ [(gameId, listener)] }

/-- Modelled from the spec: `Start()` fails fatally if the endpoint is
unset or if already running; otherwise it connects, subscribes to every
registered game's topics, resets the per-topic sequence state and sets
`running` to true. -/
def ZmqSubscriber.Start (s : ZmqSubscriber) : Except String ZmqSubscriber :=
  if ¬ s.endpoint.isSome then .error "Check failed: IsEndpointSet ()"
  else if s.running then .error "Check failed: !IsRunning ()"
  else .ok { s with running := true, lastSeq := [] }

/-- Modelled from the spec: `Stop()` fails fatally if not running;
otherwise it joins the receive thread, tears the socket down and sets
`running` to false. -/
def ZmqSubscriber.Stop (s : ZmqSubscriber) : Except String ZmqSubscriber :=
  if ¬ s.running then .error "Check failed: IsRunning ()"
  else .ok { s with running := false }

/-- The fixed leading part of a block-attach topic:
`"game-block-attach json "` (23 characters). -/
def attachTag : List Char := "game-block-attach json ".data

/-- The fixed leading part of a block-detach topic:
`"game-block-detach json "` (23 characters). -/
def detachTag : List Char := "game-block-detach json ".data

/-- Modelled from the spec: the attach topic of a game,
`"game-block-attach json <gameId>"`. -/
def attachTopic (gameId : List Char) : List Char := attachTag ++ gameId

/-- Modelled from the spec: the detach topic of a game,
`"game-block-detach json <gameId>"`. -/
def detachTopic (gameId : List Char) : List Char := detachTag ++ gameId

/-- Modelled from the spec: the topics the Subscriber's socket is
subscribed to — the attach and detach topics of every registered
game. -/
def ZmqSubscriber.subscribedTopics (s : ZmqSubscriber) : List (List Char) :=
  s.listeners.map (fun p => attachTopic p.1) ++
    s.listeners.map (fun p => detachTopic p.1)

/-- Modelled from the spec: parse a topic string into the event kind
and the game identifier, by splitting off the fixed
`"game-block-<attach|detach> json "` part. -/
def parseTopic (topic : List Char) : Option (EventKind × List Char) :=
  if topic.take 23 = attachTag then some (.attach, topic.drop 23)
  else if topic.take 23 = detachTag then some (.detach, topic.drop 23)
  else none

/-- Modelled from the spec: decode a 4-byte message part as a
little-endian unsigned 32-bit sequence number.  Only called on parts of
length 4; other shapes return 0 (the caller has already failed fatally
in that case). -/
def seqOfBytes : List Char → Nat
  | [b0, b1, b2, b3] =>
      b0.toNat + 256 * b1.toNat + 65536 * b2.toNat + 16777216 * b3.toNat
  | _ => 0

/-- Modelled from the spec: one listener invocation — which listener
handle, the game identifier, `BlockAttach` or `BlockDetach`, the parsed
payload, and the sequence-mismatch flag. -/
structure ListenerCall (J : Type) where
  listener : Nat
  gameId : List Char
  kind : EventKind
  payload : J
  seqMismatch : Bool
deriving Repr, DecidableEq

/-- The outcome of the receive loop's handling of one multipart
message: silently skipped (with unchanged state), fatal process
termination with a diagnostic, or dispatched — one listener call per
listener registered for the message's game — with the updated
Subscriber state. -/
inductive StepResult (J : Type) where
  | skipped (s : ZmqSubscriber)
  | fatal (diagnostic : String)
  | dispatched (calls : List (ListenerCall J)) (s : ZmqSubscriber)
deriving Repr, DecidableEq

/-- Modelled from the spec: handling of one received multipart message
by the running Subscriber's receive loop.  The socket's topic filter
drops messages on non-subscribed topics without looking further; a
subscribed message must have exactly three parts and a 4-byte sequence
part, its payload must parse as JSON (the parser is a parameter
`parseJson`), the stored sequence for the topic is updated to the
received value, and every listener registered for the topic's game is
invoked.  The spec's first-message-is-never-a-mismatch clause is
contradicted by the repository's own test suite:
`ZmqSubscriberTests.SequenceNumber` (`zmqsubscriber_tests.cpp:366-367`)
expects the first message per topic with `seqMismatch = true`, so a
missing baseline is reported as a mismatch. -/
def ZmqSubscriber.ProcessMessage {J : Type} (parseJson : List Char → Option J)
    (s : ZmqSubscriber) (parts : List (List Char)) : StepResult J :=
  match parts.head? with
  | none => .skipped s
  | some topic =>
    if topic ∈ s.subscribedTopics then
      if parts.length = 3 then
        match parts.getD 2 [] with
        | [b0, b1, b2, b3] =>
          match parseJson (parts.getD 1 []) with
          | none => .fatal "Error parsing JSON"
          | some j =>
            match parseTopic topic with
            | none => .skipped s
            | some (kind, gameId) =>
              if s.listeners.filter (fun p => p.1 == gameId) = [] then
                .skipped s
              else
                .dispatched
                  ((s.listeners.filter (fun p => p.1 == gameId)).map
                    (fun p =>
                      ⟨p.2, gameId, kind, j,
                        match s.lastSeq.lookup topic with
                        | none => true
                        | some prev =>
                            decide (seqOfBytes [b0, b1, b2, b3] ≠ prev + 1)⟩))
                  { s with
                      lastSeq :=
                        (topic, seqOfBytes [b0, b1, b2, b3]) :: s.lastSeq }
        | _ => .fatal "ZMQ sequence number should have size 4"
      else .fatal "Expected exactly three message parts"
    else .skipped s

/-- Modelled from the spec: the receive loop over a list of incoming
multipart messages, collecting the listener invocations in order; a
fatal step terminates the run with its diagnostic. -/
def ZmqSubscriber.Run {J : Type} (parseJson : List Char → Option J)
    (s : ZmqSubscriber) :
    List (List (List Char)) → Except String (ZmqSubscriber × List (ListenerCall J))
  | [] => .ok (s, [])
  | m :: rest =>
    match s.ProcessMessage parseJson m with
    | .skipped s' => s'.Run parseJson rest
    | .fatal d => .error d
    | .dispatched cs s' =>
      match s'.Run parseJson rest with
      | .error d => .error d
      | .ok (sf, later) => .ok (sf, cs ++ later)

/-! ## The 256-bit identifier type

The implementation file `uint256.cpp` is not among the shown sources;
only its test suite is.  The hex (de)serialization is modelled from the
specification (section 3 of the spec): 32 raw bytes, textual form of
exactly 64 hex characters, case-insensitive on input, lowercase on
output. -/

/-- Modelled from the spec: the value of a single hex digit character,
case-insensitive; `none` for every non-hex character. -/
def hexDigitVal : Char → Option Nat
  | 'F' => some 15
  | 'f' => some 15
  | 'E' => some 14
  | 'e' => some 14
  | 'D' => some 13
  | 'd' => some 13
  | 'C' => some 12
  | 'c' => some 12
  | 'B' => some 11
  | 'b' => some 11
  | 'A' => some 10
  | 'a' => some 10
  | '9' => some 9
  | '8' => some 8
  | '7' => some 7
  | '6' => some 6
  | '5' => some 5
  | '4' => some 4
  | '3' => some 3
  | '2' => some 2
  | '1' => some 1
  | '0' => some 0
  | _ => none

/-- Whether a character is a valid hex digit (either case). -/
def isHexDigitCh (c : Char) : Bool := (hexDigitVal c).isSome

/-- Modelled from the spec: decode a list of hex characters two at a
time into bytes (big-endian within each byte); fails on an odd-length
list or on any non-hex character. -/
def decodeHexPairs : List Char → Option (List Nat)
  | [] => some []
  | [_] => none
  | c1 :: c2 :: rest =>
    match hexDigitVal c1, hexDigitVal c2, decodeHexPairs rest with
    | some v1, some v2, some bs => some ((16 * v1 + v2) :: bs)
    | _, _, _ => none

/-- The sixteen lowercase hex digit characters, indexed by value. -/
def lowerHexChars : List Char := "0123456789abcdef".data

/-- Modelled from the spec: the two lowercase hex characters of one
byte, most significant nibble first. -/
def byteToHex (b : Nat) : List Char :=
  [lowerHexChars.getD (b / 16) '0', lowerHexChars.getD (b % 16) '0']

namespace uint256

/-- Modelled from the spec: `uint256::FromHex` accepts exactly
64-character strings of valid hex digits (either case) and decodes them
into the 32 raw bytes, most significant byte first; it fails on any
other length and on any non-hex character. -/
def FromHex (s : String) : Option (List Nat) :=
  if s.length = 64 then decodeHexPairs s.data else none

/-- Modelled from the spec: `uint256::ToHex` serialises the raw bytes
as lowercase hex, most significant byte first. -/
def ToHex (bytes : List Nat) : String :=
  ⟨(bytes.map byteToHex).flatten⟩

end uint256

/-! ## Concrete instances used in scenarios and witnesses -/

/-- A toy JSON parser used to instantiate the parser parameter in
concrete scenarios: accepts exactly the payload `"{}"`. -/
def toyJson : List Char → Option Nat :=
  fun p => if p = ['{', '}'] then some 0 else none

/-- The game identifier `"g1"` of the spec's concrete scenarios. -/
def g1 : List Char := ['g', '1']

/-- The endpoint address used in concrete scenarios. -/
def demoEndpoint : List Char := "ipc:///tmp/sock".data

/-- A Subscriber configured through the public operations: endpoint
set, one listener (handle 0) registered for `g1`, then started. -/
def demoSetup : Except String ZmqSubscriber :=
  (ZmqSubscriber.mk0.SetEndpoint demoEndpoint).bind
    (fun s => (s.AddListener g1 0).bind ZmqSubscriber.Start)

/-- The freshly started Subscriber that `demoSetup` produces. -/
def demoStarted : ZmqSubscriber := ⟨some demoEndpoint, [(g1, 0)], true, []⟩

/-- A stopped Subscriber that already has a listener registered for
`g1`. -/
def demoStopped : ZmqSubscriber := ⟨some demoEndpoint, [(g1, 0)], false, []⟩

/-- A running Subscriber that has already observed sequence number 1
on the attach topic of `g1`. -/
def demoSeeded : ZmqSubscriber :=
  ⟨some demoEndpoint, [(g1, 0)], true, [(attachTopic g1, 1)]⟩

/-- A running Subscriber with two listeners (handles 0 and 7)
registered for the same game `g1`, as `MultipleListeners` sets up. -/
def demoTwo : ZmqSubscriber :=
  ⟨some demoEndpoint, [(g1, 0), (g1, 7)], true, []⟩

/-- The 4-byte little-endian encoding of sequence number 1. -/
def seq1 : List Char := [Char.ofNat 1, Char.ofNat 0, Char.ofNat 0, Char.ofNat 0]

/-- The 4-byte little-endian encoding of sequence number 2. -/
def seq2 : List Char := [Char.ofNat 2, Char.ofNat 0, Char.ofNat 0, Char.ofNat 0]

/-- The 4-byte little-endian encoding of sequence number 5. -/
def seq5 : List Char := [Char.ofNat 5, Char.ofNat 0, Char.ofNat 0, Char.ofNat 0]

/-- A concrete foreign forward implementation: from state `[1]` and
any block it produces new state `[2]` with undo data `[7]`, needing a
1-byte buffer. -/
def demoForward : ForwardCallee := ⟨fun _ _ => 1, fun _ _ => [2], fun _ _ => [7]⟩

/-- The exact inverse of `demoForward`: it reconstructs the original
old state `[1]` from the new state, block data and undo data. -/
def demoBackwards : BackwardsCallee := ⟨fun _ _ _ => 1, fun _ _ _ => [1]⟩

/-- A foreign backwards implementation that always reports a minimum
required buffer size of 3000 bytes. -/
def demoGrow : BackwardsCallee := ⟨fun _ _ _ => 3000, fun _ _ _ => []⟩

/-- A concrete foreign initial-state implementation: state `[1, 2]` at
height 5, hash buffer holding 64 `'a'` characters and a trailing nul
terminator. -/
def cDemo : InitialStateCallee :=
  ⟨10, [1, 2], 5, List.replicate 64 'a' ++ [Char.ofNat 0]⟩

/-- The string of 64 `'0'` characters, a valid hex serialisation. -/
def demoHexString : String := ⟨List.replicate 64 '0'⟩

/-- The buffer state resulting from the negotiation: unchanged when
the buffer already suffices, grown once otherwise. -/
def negotiatedBuffer (minSize : Nat) (g : ExternGameLogic) : ExternGameLogic :=
  if minSize ≤ g.bufferSize then g else g.IncreaseBufferSize minSize

/-! ## Helper lemmas -/

/-- A successful association-list lookup means the key/value pair is in
the list. -/
theorem lookup_some_mem {α β : Type} [BEq α] [LawfulBEq α]
    {l : List (α × β)} {k : α} {v : β} (h : l.lookup k = some v) : (k, v) ∈ l := by
  induction l with
  | nil => simp [List.lookup] at h
  | cons p t ih =>
    obtain ⟨a, b⟩ := p
    rw [List.lookup_cons] at h
    by_cases hk : k == a
    · simp [hk] at h
      subst h
      simp [eq_of_beq hk]
    · simp [hk] at h
      exact List.mem_cons_of_mem _ (ih h)

/-- A failed association-list lookup means the key is absent. -/
theorem lookup_none_keys {α β : Type} [BEq α] [LawfulBEq α]
    {l : List (α × β)} {k : α} (h : l.lookup k = none) : k ∉ l.map Prod.fst := by
  simp at h
  intro hmem
  obtain ⟨⟨a, b⟩, hab, rfl⟩ := List.mem_map.mp hmem
  exact h a b hab rfl

/-- Parsing the attach topic of a game recovers the game id. -/
theorem parseTopic_attach (gid : List Char) :
    parseTopic (attachTopic gid) = some (.attach, gid) := by
  unfold parseTopic attachTopic
  rw [show (23 : Nat) = attachTag.length from rfl, List.take_left, List.drop_left]
  simp

/-- Parsing the detach topic of a game recovers the game id. -/
theorem parseTopic_detach (gid : List Char) :
    parseTopic (detachTopic gid) = some (.detach, gid) := by
  unfold parseTopic detachTopic
  rw [show (23 : Nat) = detachTag.length from rfl, List.take_left, List.drop_left]
  have : detachTag ≠ attachTag := by decide
  simp [this]

/-- A registered game's attach topic is among the subscribed topics. -/
theorem attach_subscribed {s : ZmqSubscriber} {gid : List Char} {l : Nat}
    (h : s.listeners.lookup gid = some l) :
    attachTopic gid ∈ s.subscribedTopics :=
  List.mem_append_left _
    (List.mem_map_of_mem (fun p => attachTopic p.1) (lookup_some_mem h))

/-- The common dispatched shape of `ProcessMessage` on a well-formed,
subscribed message for a game with at least one registered listener:
one call per registered listener of that game, in registry order, all
carrying the same mismatch flag. -/
theorem processMessage_dispatch {J : Type} (pj : List Char → Option J)
    (s : ZmqSubscriber) (topic payload : List Char) (b0 b1 b2 b3 : Char)
    (kind : EventKind) (gid : List Char) (j : J)
    (hpt : parseTopic topic = some (kind, gid))
    (hmem : topic ∈ s.subscribedTopics)
    (hne : s.listeners.filter (fun p => p.1 == gid) ≠ [])
    (hpj : pj payload = some j) :
    s.ProcessMessage pj [topic, payload, [b0, b1, b2, b3]] =
      .dispatched
        ((s.listeners.filter (fun p => p.1 == gid)).map
          (fun p =>
            ⟨p.2, gid, kind, j,
              match s.lastSeq.lookup topic with
              | none => true
              | some prev => decide (seqOfBytes [b0, b1, b2, b3] ≠ prev + 1)⟩))
        { s with lastSeq := (topic, seqOfBytes [b0, b1, b2, b3]) :: s.lastSeq } := by
  unfold ZmqSubscriber.ProcessMessage
  simp [hmem, hpt, hne, hpj]

/-- With two units of fuel, the initial-state retry loop always
succeeds against the honest callee, growing the buffer at most once. -/
theorem initialStateLoop_two (c : InitialStateCallee) (g : ExternGameLogic) :
    initialStateLoop c g 2 =
      .ok (negotiatedBuffer c.minSize g, c.stateBytes, c.stateBytes.length,
           c.height, c.hashChars) := by
  by_cases h : c.minSize ≤ g.bufferSize
  · simp [initialStateLoop, callGetInitialState, h, negotiatedBuffer]
  · obtain ⟨n, hn⟩ : ∃ n, c.minSize = n + 1 := ⟨c.minSize - 1, by omega⟩
    have h2 : c.minSize ≤ (g.IncreaseBufferSize c.minSize).bufferSize :=
      Nat.le_max_left _ _
    rw [hn] at h h2 ⊢
    simp [initialStateLoop, callGetInitialState, hn, h, h2, negotiatedBuffer]

/-- The value of a hex digit is below 16. -/
theorem hexDigitVal_lt_16 {c : Char} {v : Nat} (h : hexDigitVal c = some v) :
    v < 16 := by
  unfold hexDigitVal at h
  split at h <;> simp_all <;> omega

/-- Re-encoding the value of a hex digit gives the digit's lowercase
form. -/
theorem getD_hexDigitVal {c : Char} {v : Nat} (h : hexDigitVal c = some v) :
    lowerHexChars.getD v '0' = c.toLower := by
  unfold hexDigitVal at h
  split at h <;> simp_all <;> (subst h; decide)

/-- Encoding the byte of two hex digits gives their lowercase forms. -/
theorem byteToHex_of_digits {c1 c2 : Char} {v1 v2 : Nat}
    (h1 : hexDigitVal c1 = some v1) (h2 : hexDigitVal c2 = some v2) :
    byteToHex (16 * v1 + v2) = [c1.toLower, c2.toLower] := by
  have hv2 : v2 < 16 := hexDigitVal_lt_16 h2
  have hdiv : (16 * v1 + v2) / 16 = v1 := by omega
  have hmod : (16 * v1 + v2) % 16 = v2 := by omega
  rw [byteToHex, hdiv, hmod, getD_hexDigitVal h1, getD_hexDigitVal h2]

/-- Induction on a character list two elements at a time. -/
def pairRec {motive : List Char → Prop} (h0 : motive []) (h1 : ∀ c, motive [c])
    (h2 : ∀ c1 c2 rest, motive rest → motive (c1 :: c2 :: rest)) :
    ∀ l, motive l
  | [] => h0
  | [c] => h1 c
  | c1 :: c2 :: rest => h2 c1 c2 rest (pairRec h0 h1 h2 rest)

/-- Decoding an even-length list of hex digits succeeds, and
re-encoding the bytes yields the lowercase form of the input. -/
theorem decodeHexPairs_all_hex :
    ∀ l : List Char, (∀ c ∈ l, isHexDigitCh c) → l.length % 2 = 0 →
    ∃ u, decodeHexPairs l = some u ∧
      (u.map byteToHex).flatten = l.map Char.toLower := by
  intro l
  induction l using pairRec with
  | h0 => intro _ _; exact ⟨[], rfl, rfl⟩
  | h1 c => intro _ hlen; simp at hlen
  | h2 c1 c2 rest ih =>
    intro hall hlen
    have h1 : isHexDigitCh c1 := hall c1 (by simp)
    have h2 : isHexDigitCh c2 := hall c2 (by simp)
    obtain ⟨v1, hv1⟩ := Option.isSome_iff_exists.mp h1
    obtain ⟨v2, hv2⟩ := Option.isSome_iff_exists.mp h2
    obtain ⟨u, hu, hjoin⟩ := ih (fun c hc => hall c (by simp [hc]))
      (by simp at hlen ⊢; omega)
    refine ⟨(16 * v1 + v2) :: u, ?_, ?_⟩
    · simp [decodeHexPairs, hv1, hv2, hu]
    · simp [hjoin, byteToHex_of_digits hv1 hv2]

/-- Decoding fails whenever the list contains a non-hex character. -/
theorem decodeHexPairs_bad :
    ∀ l : List Char, (∃ c ∈ l, isHexDigitCh c = false) →
    decodeHexPairs l = none := by
  intro l
  induction l using pairRec with
  | h0 => intro h; simp at h
  | h1 c => intro _; rfl
  | h2 c1 c2 rest ih =>
    intro h
    obtain ⟨c, hc, hbad⟩ := h
    rw [decodeHexPairs]
    simp at hc
    rcases hc with rfl | rfl | hc
    · have : hexDigitVal c = none := by
        simpa [isHexDigitCh, Option.isSome_iff_exists] using hbad
      simp [this]
    · have : hexDigitVal c = none := by
        simpa [isHexDigitCh, Option.isSome_iff_exists] using hbad
      simp [this]
    · have hrest := ih ⟨c, hc, hbad⟩
      simp [hrest]

/-! ## Claim theorems -/

/-- Claim C1: the spec requires
`ProcessBackwards(ProcessForward(s, b).newState, b, ProcessForward(s, b).undoData) = s`,
but the adapter's `ProcessBackwards` executes `return newState;`
(`cmain.cpp:261`) after reconstructing the old state, so the round trip
returns the new state instead of the original one.  Concretely: the
foreign calls map state `[1]` to `([2], [7])` and correctly invert
`([2], b, [7])` back to `[1]`, yet the adapter's round trip yields
`[2] ≠ [1]`. -/
theorem c1_processBackwards_returns_newState :
    ExternGameLogic.init.ProcessForward demoForward [1] ['b'] =
      .ok (ExternGameLogic.init, [2], [7]) ∧
    demoBackwards.oldStateOut [2] ['b'] [7] = [1] ∧
    ExternGameLogic.init.ProcessBackwards demoBackwards [2] ['b'] [7] =
      .ok (ExternGameLogic.init, [2]) ∧
    ([2] : List Nat) ≠ [1] :=
  ⟨rfl, rfl, rfl, by decide⟩

/-- Claim C5: the adapter's buffer size starts at 1024; every growth
event sets it to `max(reportedMinimum, 2 × currentSize)`; a nonzero
result code makes the retry loop call again with the increased size;
and concretely 1024 grows to `max(3000, 2048) = 3000` on a report of
3000 and then to `max(3500, 6000) = 6000` on a report of 3500. -/
theorem c5_buffer_growth :
    ExternGameLogic.init.bufferSize = 1024 ∧
    (∀ (g : ExternGameLogic) (d : Nat),
      (g.IncreaseBufferSize d).bufferSize = max d (2 * g.bufferSize)) ∧
    (∀ (c : BackwardsCallee) (ns : List Nat) (bd : List Char) (ud : List Nat)
        (g : ExternGameLogic) (fuel res : Nat),
      (callBackwards c ns bd ud g.bufferSize).1 = res + 1 →
      backwardsLoop c ns bd ud g (fuel + 1) =
        backwardsLoop c ns bd ud (g.IncreaseBufferSize (res + 1)) fuel) ∧
    (ExternGameLogic.init.IncreaseBufferSize 3000).bufferSize = 3000 ∧
    ((ExternGameLogic.init.IncreaseBufferSize 3000).IncreaseBufferSize 3500).bufferSize
      = 6000 := by
  refine ⟨rfl, fun g d => rfl, ?_, by decide, by decide⟩
  intro c ns bd ud g fuel res h
  cases hcb : callBackwards c ns bd ud g.bufferSize with
  | mk r o =>
    rw [hcb] at h
    simp only at h
    subst h
    simp [backwardsLoop, hcb]

/-- Witness for C5 at concrete inputs: a callee reporting 3000 against
the initial 1024-byte buffer makes the loop retry with the grown
buffer. -/
theorem c5_buffer_growth_witness :
    backwardsLoop demoGrow [] ['b'] [] ExternGameLogic.init 2 =
      backwardsLoop demoGrow [] ['b'] []
        (ExternGameLogic.init.IncreaseBufferSize 3000) 1 :=
  c5_buffer_growth.2.2.1 demoGrow [] ['b'] [] ExternGameLogic.init 1 2999
    (by decide)

/-- Claim C7: every lifecycle misuse of the Subscriber fails fatally:
`Start()` with no endpoint, `Start()` while running, `Stop()` while not
running, and `SetEndpoint`/`AddListener` while running. -/
theorem c7_lifecycle_misuse :
    (∀ s : ZmqSubscriber, s.endpoint = none →
      s.Start = .error "Check failed: IsEndpointSet ()") ∧
    (∀ s : ZmqSubscriber, s.endpoint.isSome = true → s.running = true →
      s.Start = .error "Check failed: !IsRunning ()") ∧
    (∀ s : ZmqSubscriber, s.running = false →
      s.Stop = .error "Check failed: IsRunning ()") ∧
    (∀ (s : ZmqSubscriber) (a : List Char), s.running = true →
      s.SetEndpoint a = .error "Check failed: !IsRunning ()") ∧
    (∀ (s : ZmqSubscriber) (gid : List Char) (l : Nat), s.running = true →
      s.AddListener gid l = .error "Check failed: !IsRunning ()") := by
  refine ⟨?_, ?_, ?_, ?_, ?_⟩
  · intro s h; simp [ZmqSubscriber.Start, h]
  · intro s he hr; simp [ZmqSubscriber.Start, he, hr]
  · intro s h; simp [ZmqSubscriber.Stop, h]
  · intro s a h; simp [ZmqSubscriber.SetEndpoint, h]
  · intro s gid l h; simp [ZmqSubscriber.AddListener, h]

/-- Witness for C7 at concrete states: each misuse on a concrete
Subscriber produces the fatal diagnostic. -/
theorem c7_lifecycle_misuse_witness :
    ZmqSubscriber.mk0.Start = .error "Check failed: IsEndpointSet ()" ∧
    demoStarted.Start = .error "Check failed: !IsRunning ()" ∧
    ZmqSubscriber.mk0.Stop = .error "Check failed: IsRunning ()" ∧
    demoStarted.SetEndpoint ['f', 'o', 'o'] =
      .error "Check failed: !IsRunning ()" ∧
    demoStarted.AddListener ['g', '2'] 1 =
      .error "Check failed: !IsRunning ()" :=
  ⟨c7_lifecycle_misuse.1 ZmqSubscriber.mk0 rfl,
   c7_lifecycle_misuse.2.1 demoStarted rfl rfl,
   c7_lifecycle_misuse.2.2.1 ZmqSubscriber.mk0 rfl,
   c7_lifecycle_misuse.2.2.2.1 demoStarted ['f', 'o', 'o'] rfl,
   c7_lifecycle_misuse.2.2.2.2 demoStarted ['g', '2'] 1 rfl⟩

/-- Claim C10: in the adapter's `GetInitialState`, a negative reported
height trips the `CHECK (intHeight >= 0)` and terminates the process;
with a non-negative reported height the fatal branch is unreachable,
the returned height equals the reported value, and the returned hash
string is the 65-character buffer truncated to exactly 64 characters
(stripping the trailing nul terminator). -/
theorem c10_getInitialState (c : InitialStateCallee) (g : ExternGameLogic) :
    (c.height < 0 →
      g.GetInitialState c = .error "Check failed: intHeight >= 0") ∧
    (0 ≤ c.height → c.hashChars.length = 65 →
      g.GetInitialState c =
        .ok (negotiatedBuffer c.minSize g, c.stateBytes, c.height.toNat,
             c.hashChars.take 64) ∧
      (c.hashChars.take 64).length = 64 ∧
      (c.height.toNat : Int) = c.height) := by
  constructor
  · intro hneg
    unfold ExternGameLogic.GetInitialState
    rw [initialStateLoop_two]
    simp [hneg]
  · intro hpos hlen
    have hnneg : ¬ c.height < 0 := not_lt.mpr hpos
    unfold ExternGameLogic.GetInitialState
    rw [initialStateLoop_two]
    refine ⟨?_, ?_, Int.toNat_of_nonneg hpos⟩
    · simp [hnneg, List.take_length]
    · simp [List.length_take, hlen]

/-- Witness for C10 at a concrete callee reporting height 5 and a
64-digit hash plus nul terminator. -/
theorem c10_getInitialState_witness :
    ExternGameLogic.init.GetInitialState cDemo =
      .ok (negotiatedBuffer cDemo.minSize ExternGameLogic.init,
           cDemo.stateBytes, cDemo.height.toNat, cDemo.hashChars.take 64) ∧
    (cDemo.hashChars.take 64).length = 64 ∧
    (cDemo.height.toNat : Int) = cDemo.height :=
  (c10_getInitialState cDemo ExternGameLogic.init).2 (by decide) (by decide)

/-- Claim C2 counterexample: the claim's concrete scenario (seq=1 then
seq=2 on the attach topic of `g1`, both calls with
`seqMismatch = false`) is false of the program: as the test suite
(`ZmqSubscriberTests.SequenceNumber`, `zmqsubscriber_tests.cpp:366`)
requires, the first call carries `seqMismatch = true`, so the run's
mismatch flags are `[true, false]`, not `[false, false]`. -/
theorem c2_counterexample :
    (demoStarted.Run toyJson
        [[attachTopic g1, ['{', '}'], seq1],
         [attachTopic g1, ['{', '}'], seq2]]).map
        (fun p => p.2.map ListenerCall.seqMismatch) =
      .ok [true, false] ∧
    ([true, false] : List Bool) ≠ [false, false] :=
  ⟨rfl, by decide⟩

/-- Claim C2 (amended): for a freshly started Subscriber, the first
message received on a topic — no stored baseline — is dispatched with
`seqMismatch = true`; concretely, a freshly started Subscriber with one
listener on `g1` that receives attach messages with sequence numbers 1
and 2 produces two `BlockAttach` calls, the first with
`seqMismatch = true` and the second with `seqMismatch = false`. -/
theorem c2_first_message_mismatch :
    (∀ {J : Type} (pj : List Char → Option J) (s : ZmqSubscriber)
        (topic payload : List Char) (b0 b1 b2 b3 : Char)
        (kind : EventKind) (gid : List Char) (j : J),
      parseTopic topic = some (kind, gid) →
      topic ∈ s.subscribedTopics →
      s.listeners.filter (fun p => p.1 == gid) ≠ [] →
      s.lastSeq.lookup topic = none →
      pj payload = some j →
      s.ProcessMessage pj [topic, payload, [b0, b1, b2, b3]] =
        .dispatched
          ((s.listeners.filter (fun p => p.1 == gid)).map
            (fun p => ⟨p.2, gid, kind, j, true⟩))
          { s with lastSeq := (topic, seqOfBytes [b0, b1, b2, b3]) :: s.lastSeq }) ∧
    demoSetup = .ok demoStarted ∧
    demoStarted.Run toyJson
        [[attachTopic g1, ['{', '}'], seq1],
         [attachTopic g1, ['{', '}'], seq2]] =
      .ok ({ demoStarted with
              lastSeq := [(attachTopic g1, 2), (attachTopic g1, 1)] },
           [⟨0, g1, .attach, 0, true⟩, ⟨0, g1, .attach, 0, false⟩]) := by
  refine ⟨?_, rfl, rfl⟩
  intro J pj s topic payload b0 b1 b2 b3 kind gid j hpt hmem hne hseq hpj
  rw [processMessage_dispatch pj s topic payload b0 b1 b2 b3 kind gid j
        hpt hmem hne hpj, hseq]

/-- Witness for C2 at concrete inputs: the first attach message for
`g1` on the freshly started Subscriber dispatches with
`seqMismatch = true`. -/
theorem c2_first_message_mismatch_witness :
    demoStarted.ProcessMessage toyJson [attachTopic g1, ['{', '}'], seq1] =
      .dispatched
        ((demoStarted.listeners.filter (fun p => p.1 == g1)).map
          (fun p => ⟨p.2, g1, .attach, 0, true⟩))
        { demoStarted with lastSeq := [(attachTopic g1, seqOfBytes seq1)] } :=
  c2_first_message_mismatch.1 toyJson demoStarted (attachTopic g1)
    ['{', '}'] (Char.ofNat 1) (Char.ofNat 0) (Char.ofNat 0) (Char.ofNat 0)
    .attach g1 0 (by decide) (by decide) (by decide) (by decide) (by decide)

/-- Claim C3 counterexample: `AddListener` on a game identifier that
already has a listener does not terminate the process — it returns
normally with the registration appended, exactly as
`ZmqSubscriberTests.MultipleListeners`
(`zmqsubscriber_tests.cpp:404-406`) exercises — and a message for a
game with two registered listeners is dispatched to both of them (two
calls, not exactly one). -/
theorem c3_counterexample :
    demoStopped.AddListener g1 7 =
      .ok ⟨some demoEndpoint, [(g1, 0), (g1, 7)], false, []⟩ ∧
    demoTwo.ProcessMessage toyJson [attachTopic g1, ['{', '}'], seq1] =
      .dispatched [⟨0, g1, .attach, 0, true⟩, ⟨7, g1, .attach, 0, true⟩]
        { demoTwo with lastSeq := [(attachTopic g1, 1)] } ∧
    ([⟨0, g1, .attach, 0, true⟩, ⟨7, g1, .attach, 0, true⟩] :
        List (ListenerCall Nat)).length ≠ 1 :=
  ⟨rfl, rfl, by decide⟩

/-- Claim C3 (amended): `AddListener` while stopped always succeeds and
appends the registration, also for a game identifier that already has
a listener (the registry is a multimap); a dispatched message produces
exactly one call per listener registered for its game, in registry
order; and every dispatched call targets a (gameId, listener) pair
present in the registry. -/
theorem c3_multimap_registration :
    (∀ (s : ZmqSubscriber) (gid : List Char) (l : Nat),
      s.running = false →
      s.AddListener gid l =
        .ok { s with listeners := s.listeners ++ [(gid, l)] }) ∧
    (∀ {J : Type} (pj : List Char → Option J) (s : ZmqSubscriber)
        (topic payload : List Char) (b0 b1 b2 b3 : Char)
        (kind : EventKind) (gid : List Char) (j : J),
      parseTopic topic = some (kind, gid) →
      topic ∈ s.subscribedTopics →
      s.listeners.filter (fun p => p.1 == gid) ≠ [] →
      pj payload = some j →
      s.ProcessMessage pj [topic, payload, [b0, b1, b2, b3]] =
        .dispatched
          ((s.listeners.filter (fun p => p.1 == gid)).map
            (fun p =>
              ⟨p.2, gid, kind, j,
                match s.lastSeq.lookup topic with
                | none => true
                | some prev =>
                    decide (seqOfBytes [b0, b1, b2, b3] ≠ prev + 1)⟩))
          { s with lastSeq := (topic, seqOfBytes [b0, b1, b2, b3]) :: s.lastSeq }) ∧
    (∀ {J : Type} (pj : List Char → Option J) (s : ZmqSubscriber)
        (parts : List (List Char)) (calls : List (ListenerCall J))
        (s' : ZmqSubscriber),
      s.ProcessMessage pj parts = .dispatched calls s' →
      ∀ c ∈ calls, (c.gameId, c.listener) ∈ s.listeners) := by
  refine ⟨?_, ?_, ?_⟩
  · intro s gid l hrun
    simp [ZmqSubscriber.AddListener, hrun]
  · intro J pj s topic payload b0 b1 b2 b3 kind gid j hpt hmem hne hpj
    exact processMessage_dispatch pj s topic payload b0 b1 b2 b3 kind gid j
      hpt hmem hne hpj
  · intro J pj s parts calls s' h c hc
    unfold ZmqSubscriber.ProcessMessage at h
    repeat' split at h
    all_goals first
      | exact StepResult.noConfusion h
      | (injection h with hcs hst
         subst hcs
         rcases List.mem_map.mp hc with ⟨p, hp, rfl⟩
         rcases List.mem_filter.mp hp with ⟨hpl, hpe⟩
         rw [beq_iff_eq] at hpe
         rw [← hpe]
         simpa using hpl)

/-- Witness for C3 at concrete inputs: a second registration for `g1`
returns normally, and a message for `g1` with two registered listeners
dispatches one call per listener. -/
theorem c3_multimap_registration_witness :
    demoStopped.AddListener g1 7 =
      .ok { demoStopped with
              listeners := demoStopped.listeners ++ [(g1, 7)] } ∧
    demoTwo.ProcessMessage toyJson [attachTopic g1, ['{', '}'], seq1] =
      .dispatched
        ((demoTwo.listeners.filter (fun p => p.1 == g1)).map
          (fun p =>
            ⟨p.2, g1, .attach, 0,
              match demoTwo.lastSeq.lookup (attachTopic g1) with
              | none => true
              | some prev => decide (seqOfBytes seq1 ≠ prev + 1)⟩))
        { demoTwo with lastSeq := [(attachTopic g1, seqOfBytes seq1)] } :=
  ⟨c3_multimap_registration.1 demoStopped g1 7 rfl,
   c3_multimap_registration.2.1 toyJson demoTwo (attachTopic g1) ['{', '}']
     (Char.ofNat 1) (Char.ofNat 0) (Char.ofNat 0) (Char.ofNat 0)
     .attach g1 0 (by decide) (by decide) (by decide) (by decide)⟩

/-- Claim C4: a dispatched message on a topic that already has a stored
sequence number reports a mismatch exactly when the received sequence
number differs from the stored one plus one, and the stored sequence
number for that topic becomes the received value regardless of the
mismatch outcome. -/
theorem c4_sequence_mismatch_update :
    ∀ {J : Type} (pj : List Char → Option J) (s : ZmqSubscriber)
      (topic payload : List Char) (b0 b1 b2 b3 : Char)
      (kind : EventKind) (gid : List Char) (j : J) (prev : Nat),
    parseTopic topic = some (kind, gid) →
    topic ∈ s.subscribedTopics →
    s.listeners.filter (fun p => p.1 == gid) ≠ [] →
    s.lastSeq.lookup topic = some prev →
    pj payload = some j →
    s.ProcessMessage pj [topic, payload, [b0, b1, b2, b3]] =
      .dispatched
        ((s.listeners.filter (fun p => p.1 == gid)).map
          (fun p =>
            ⟨p.2, gid, kind, j,
              decide (seqOfBytes [b0, b1, b2, b3] ≠ prev + 1)⟩))
        { s with lastSeq := (topic, seqOfBytes [b0, b1, b2, b3]) :: s.lastSeq } ∧
    (decide (seqOfBytes [b0, b1, b2, b3] ≠ prev + 1) = true ↔
      seqOfBytes [b0, b1, b2, b3] ≠ prev + 1) ∧
    ({ s with
        lastSeq := (topic, seqOfBytes [b0, b1, b2, b3]) ::
          s.lastSeq }.lastSeq.lookup topic =
      some (seqOfBytes [b0, b1, b2, b3])) := by
  intro J pj s topic payload b0 b1 b2 b3 kind gid j prev hpt hmem hne hseq hpj
  refine ⟨?_, decide_eq_true_iff, by simp [List.lookup]⟩
  rw [processMessage_dispatch pj s topic payload b0 b1 b2 b3 kind gid j
        hpt hmem hne hpj, hseq]

/-- Witness for C4 at concrete inputs: after sequence number 1 on the
attach topic of `g1`, a message with sequence number 5 dispatches with
`seqMismatch = true` and the stored sequence number becomes 5. -/
theorem c4_sequence_mismatch_update_witness :
    demoSeeded.ProcessMessage toyJson [attachTopic g1, ['{', '}'], seq5] =
      .dispatched
        ((demoSeeded.listeners.filter (fun p => p.1 == g1)).map
          (fun p => ⟨p.2, g1, .attach, 0, decide (seqOfBytes seq5 ≠ 1 + 1)⟩))
        { demoSeeded with
            lastSeq := (attachTopic g1, seqOfBytes seq5) :: demoSeeded.lastSeq } ∧
    (decide (seqOfBytes seq5 ≠ 1 + 1) = true ↔ seqOfBytes seq5 ≠ 1 + 1) ∧
    ({ demoSeeded with
        lastSeq := (attachTopic g1, seqOfBytes seq5) ::
          demoSeeded.lastSeq }.lastSeq.lookup (attachTopic g1) =
      some (seqOfBytes seq5)) :=
  c4_sequence_mismatch_update toyJson demoSeeded (attachTopic g1) ['{', '}']
    (Char.ofNat 5) (Char.ofNat 0) (Char.ofNat 0) (Char.ofNat 0)
    .attach g1 0 1 (by decide) (by decide) (by decide) (by decide) (by decide)

/-- Claim C6: a message received on a subscribed topic with a part
count other than 3, or with a sequence part that is not exactly 4 bytes
long, or with a payload that does not parse as JSON, terminates the
process with the corresponding diagnostic. -/
theorem c6_malformed_message_fatal :
    (∀ {J : Type} (pj : List Char → Option J) (s : ZmqSubscriber)
        (parts : List (List Char)) (topic : List Char),
      parts.head? = some topic → topic ∈ s.subscribedTopics →
      parts.length ≠ 3 →
      s.ProcessMessage pj parts =
        .fatal "Expected exactly three message parts") ∧
    (∀ {J : Type} (pj : List Char → Option J) (s : ZmqSubscriber)
        (topic payload seqB : List Char),
      topic ∈ s.subscribedTopics → seqB.length ≠ 4 →
      s.ProcessMessage pj [topic, payload, seqB] =
        .fatal "ZMQ sequence number should have size 4") ∧
    (∀ {J : Type} (pj : List Char → Option J) (s : ZmqSubscriber)
        (topic payload : List Char) (b0 b1 b2 b3 : Char),
      topic ∈ s.subscribedTopics → pj payload = none →
      s.ProcessMessage pj [topic, payload, [b0, b1, b2, b3]] =
        .fatal "Error parsing JSON") := by
  refine ⟨?_, ?_, ?_⟩
  · intro J pj s parts topic hhead hmem hlen
    cases parts with
    | nil => simp at hhead
    | cons t rest =>
      simp at hhead
      subst hhead
      have hlen2 : rest.length ≠ 2 := by
        simp only [List.length_cons] at hlen
        omega
      unfold ZmqSubscriber.ProcessMessage
      simp [hmem, hlen2]
  · intro J pj s topic payload seqB hmem h4
    unfold ZmqSubscriber.ProcessMessage
    rcases seqB with _ | ⟨a, _ | ⟨b, _ | ⟨c, _ | ⟨d, rest⟩⟩⟩⟩
    · simp [hmem]
    · simp [hmem]
    · simp [hmem]
    · simp [hmem]
    · cases rest with
      | nil => exact absurd rfl h4
      | cons e rest2 => simp [hmem]
  · intro J pj s topic payload b0 b1 b2 b3 hmem hpj
    unfold ZmqSubscriber.ProcessMessage
    simp [hmem, hpj]

/-- Witness for C6 at concrete messages on the running Subscriber: a
two-part message, a 3-byte sequence part and an unparsable payload each
produce their fatal diagnostic. -/
theorem c6_malformed_message_fatal_witness :
    demoStarted.ProcessMessage toyJson [attachTopic g1, ['{', '}']] =
      .fatal "Expected exactly three message parts" ∧
    demoStarted.ProcessMessage toyJson
        [attachTopic g1, ['{', '}'], ['1', '2', '3']] =
      .fatal "ZMQ sequence number should have size 4" ∧
    demoStarted.ProcessMessage toyJson [attachTopic g1, ['j'], seq1] =
      .fatal "Error parsing JSON" :=
  ⟨c6_malformed_message_fatal.1 toyJson demoStarted
      [attachTopic g1, ['{', '}']] (attachTopic g1) rfl (by decide) (by decide),
   c6_malformed_message_fatal.2.1 toyJson demoStarted (attachTopic g1)
      ['{', '}'] ['1', '2', '3'] (by decide) (by decide),
   c6_malformed_message_fatal.2.2 toyJson demoStarted (attachTopic g1)
      ['j'] (Char.ofNat 1) (Char.ofNat 0) (Char.ofNat 0) (Char.ofNat 0)
      (by decide) (by decide)⟩

/-- Claim C9: a message whose topic is not among the subscribed topics
is skipped without any fatal error, listener invocation or state
change, even when malformed; a following well-formed message on a
subscribed topic is dispatched normally. -/
theorem c9_nonsubscribed_ignored :
    (∀ {J : Type} (pj : List Char → Option J) (s : ZmqSubscriber)
        (parts : List (List Char)) (topic : List Char),
      parts.head? = some topic → topic ∉ s.subscribedTopics →
      s.ProcessMessage pj parts = .skipped s) ∧
    demoStarted.Run toyJson
        [[['o', 't', 'h', 'e', 'r'], ['s', 't', 'u', 'f', 'f'],
          ['b', 'a', 'd']],
         [attachTopic g1, ['{', '}'], seq1]] =
      .ok ({ demoStarted with lastSeq := [(attachTopic g1, 1)] },
           [⟨0, g1, .attach, 0, true⟩]) := by
  refine ⟨?_, rfl⟩
  intro J pj s parts topic hhead hmem
  cases parts with
  | nil => simp at hhead
  | cons t rest =>
    simp at hhead
    subst hhead
    unfold ZmqSubscriber.ProcessMessage
    simp [hmem]

/-- Witness for C9 at a concrete malformed, non-subscribed message: it
is skipped with the Subscriber state unchanged. -/
theorem c9_nonsubscribed_ignored_witness :
    demoStarted.ProcessMessage toyJson
        [['o', 't', 'h'], ['x'], ['b', 'a', 'd']] = .skipped demoStarted :=
  c9_nonsubscribed_ignored.1 toyJson demoStarted
    [['o', 't', 'h'], ['x'], ['b', 'a', 'd']] ['o', 't', 'h'] rfl (by decide)

/-- Claim C8: hex decoding succeeds on every string of exactly 64 hex
digits (either case) and re-encoding yields the lowercase form of the
input; decoding fails on every string of any other length and on every
string containing a non-hex character. -/
theorem c8_fromHex_toHex_roundtrip (s : String) :
    (s.length = 64 → (∀ c ∈ s.data, isHexDigitCh c) →
      (uint256.FromHex s).map uint256.ToHex =
        some ⟨s.data.map Char.toLower⟩) ∧
    (s.length ≠ 64 → uint256.FromHex s = none) ∧
    ((∃ c ∈ s.data, isHexDigitCh c = false) → uint256.FromHex s = none) := by
  refine ⟨?_, ?_, ?_⟩
  · intro hlen hall
    have hlen' : s.data.length = 64 := hlen
    obtain ⟨u, hu, hjoin⟩ := decodeHexPairs_all_hex s.data hall (by omega)
    unfold uint256.FromHex
    rw [if_pos hlen, hu]
    show some (uint256.ToHex u) = some ⟨s.data.map Char.toLower⟩
    unfold uint256.ToHex
    exact congrArg some (congrArg String.mk hjoin)
  · intro h
    unfold uint256.FromHex
    rw [if_neg h]
  · intro hbad
    by_cases hlen : s.length = 64
    · unfold uint256.FromHex
      rw [if_pos hlen, decodeHexPairs_bad s.data hbad]
    · unfold uint256.FromHex
      rw [if_neg hlen]

/-- Witness for C8 at the string of 64 zeros: decoding succeeds and
re-encoding reproduces the string. -/
theorem c8_fromHex_toHex_roundtrip_witness :
    (uint256.FromHex demoHexString).map uint256.ToHex =
      some ⟨demoHexString.data.map Char.toLower⟩ :=
  (c8_fromHex_toHex_roundtrip demoHexString).1 (by decide) (by decide)

end Xaya
